import Mathlib

/-!
Verification of the qemacs buffer-editor mode (`src/modes/bufed.c`): a shallow
embedding of its buffer-list data model, sort comparator, list rebuild, selection
iterator and per-row commands, together with theorems settling the spec claims.

Conventions of the embedding:
* C `int` values that take part in arithmetic (comparison results, sizes, times,
  the `modified` field) are `Int`; bit masks are `Nat` with `&&&`/`^^^`.
* The `EditBuffer` pointer graph is modelled by structural values; the buffer
  registry (`qs->first_buffer` chain) is a `List EditBuffer`, and C pointer
  equality is modelled by structural equality (the concrete scenarios give every
  buffer a distinct name, as qemacs itself guarantees).
* Code of the repository that is not under `src/` (qe.h, util.c, buffer.c) is
  modelled from the spec where a definition needs it; each such definition says
  so in its doc comment.
-/

/-- Modelled from the spec: the `BF_SYSTEM` buffer flag bit (qe.h is not under
`src/`; the spec only requires a dedicated "system" flag bit, so the flag bits
are modelled as distinct low bits). -/
def BF_SYSTEM : Nat := 1

/-- Modelled from the spec: the `BF_READONLY` buffer flag bit (qe.h not under `src/`). -/
def BF_READONLY : Nat := 2

/-- Modelled from the spec: the `BF_IS_LOG` buffer flag bit (qe.h not under `src/`). -/
def BF_IS_LOG : Nat := 4

/-- Modelled from the spec: the `BF_IS_STYLE` buffer flag bit (qe.h not under `src/`). -/
def BF_IS_STYLE : Nat := 8

/-- Modelled from the spec: the `BF_DIRED` buffer flag bit (qe.h not under `src/`). -/
def BF_DIRED : Nat := 16

/-- `BUFED_SORT_MODIFIED` (bufed.c line 25). -/
def BUFED_SORT_MODIFIED : Nat := 1 <<< 0

/-- `BUFED_SORT_TIME` (bufed.c line 26). -/
def BUFED_SORT_TIME : Nat := 1 <<< 2

/-- `BUFED_SORT_NAME` (bufed.c line 27). -/
def BUFED_SORT_NAME : Nat := 1 <<< 4

/-- `BUFED_SORT_FILENAME` (bufed.c line 28). -/
def BUFED_SORT_FILENAME : Nat := 1 <<< 6

/-- `BUFED_SORT_SIZE` (bufed.c line 29). -/
def BUFED_SORT_SIZE : Nat := 1 <<< 8

/-- `BUFED_SORT_DESCENDING` (bufed.c line 30): the mask of all odd bits; the
"descending" variant of a key `k` produced by `bufed_set_sort` is `k * 3`,
whose extra bit `k <<< 1` lands in this mask. -/
def BUFED_SORT_DESCENDING : Nat := 0xAAAA

/-- `BUFED_HIDE_SYSTEM` (bufed.c line 36). -/
def BUFED_HIDE_SYSTEM : Nat := 0

/-- `BUFED_ALL_VISIBLE` (bufed.c line 37). -/
def BUFED_ALL_VISIBLE : Nat := 1

/-- Modelled from the spec: the style id used for system rows
(`BUFED_STYLE_SYSTEM = QE_STYLE_ERROR`; the QE_STYLE numbers live in qe.h,
not under `src/`, and only the id's identity matters here). -/
def BUFED_STYLE_SYSTEM : Nat := 5

/-- The fields of a qemacs `EditBuffer` that bufed.c reads.  `modified` is a C
`int` used both as a truth value and in the subtraction `b2->modified -
b1->modified`, so it stays an `Int` here.  The three mode pointers and
`data_type_name` are modelled by the mode names bufed.c prints. -/
structure EditBuffer where
  name : String
  filename : String
  flags : Nat
  modified : Int
  mtime : Int
  total_size : Int
  charset : String
  style_bytes : Nat
  saved_mode : Option String
  default_mode : Option String
  syntax_mode : Option String
  data_type_name : Option String
  mode_data_list : List (Option String)
deriving DecidableEq

/-- A convenience constructor: the scenario buffers differ only in name,
filename, flags, modified, mtime and size. -/
def mkBuf (name filename : String) (flags : Nat) (modified mtime total_size : Int) :
    EditBuffer :=
  { name := name, filename := filename, flags := flags, modified := modified,
    mtime := mtime, total_size := total_size, charset := "utf-8", style_bytes := 0,
    saved_mode := none, default_mode := none, syntax_mode := none,
    data_type_name := none, mode_data_list := [] }

/-- Byte-wise three-way comparison of two character lists, the `strcmp` order. -/
def collate : List Char → List Char → Int
  | [], [] => 0
  | [], _ :: _ => -1
  | _ :: _, [] => 1
  | c1 :: r1, c2 :: r2 =>
    if c1.toNat < c2.toNat then -1 else if c2.toNat < c1.toNat then 1 else collate r1 r2

/-- Modelled from the spec: `qe_strcollate` (util.c, not under `src/`) is the
locale-aware collation primitive, "specified only at its interface boundary":
a three-way string comparison.  Modelled as the lexicographic (`strcmp`)
order, which is `qe_strcollate`'s own fallback. -/
def qe_strcollate (s1 s2 : String) : Int :=
  collate s1.data s2.data

/-- The first byte of a C string: `*s` is the first character, and the NUL
terminator, i.e. 0, when the string is empty. -/
def first_byte (s : String) : Int :=
  match s.data with
  | [] => 0
  | c :: _ => (c.toNat : Int)

/-- The `for (;;)` body of `bufed_sort_func` (bufed.c lines 83-113): the
remaining sort keys in fixed precedence - modification time, then size, then
filename (first-byte difference, then collation), then the buffer-name
fallback (names starting with the marker byte 42, the asterisk, last, then
collation).  Every branch of the C loop ends in `break`, so it is a single
if-chain. -/
def sortLoop (sort_mode : Nat) (b1 b2 : EditBuffer) : Int :=
  if sort_mode &&& BUFED_SORT_TIME ≠ 0 ∧ b1.mtime ≠ b2.mtime then
    (if b1.mtime < b2.mtime then -1 else 1)
  else if sort_mode &&& BUFED_SORT_SIZE ≠ 0 ∧ b1.total_size ≠ b2.total_size then
    (if b1.total_size < b2.total_size then -1 else 1)
  else if sort_mode &&& BUFED_SORT_FILENAME ≠ 0 ∧
          first_byte b2.filename - first_byte b1.filename ≠ 0 then
    first_byte b2.filename - first_byte b1.filename
  else if sort_mode &&& BUFED_SORT_FILENAME ≠ 0 ∧
          qe_strcollate b1.filename b2.filename ≠ 0 then
    qe_strcollate b1.filename b2.filename
  else
    -- bufed.c lines 107-111: `(*b1->name == '*') - (*b2->name == '*')`,
    -- the asterisk being byte 42
    if (if first_byte b1.name = 42 then (1 : Int) else 0)
     - (if first_byte b2.name = 42 then (1 : Int) else 0) ≠ 0 then
      (if first_byte b1.name = 42 then (1 : Int) else 0)
    - (if first_byte b2.name = 42 then (1 : Int) else 0)
    else qe_strcollate b1.name b2.name

/-- `bufed_sort_func` (bufed.c lines 67-115), after the two `StringItem`
dereferences: the system-flag difference returns immediately (line 76-77,
before any negation); a non-zero modified difference returns immediately
(lines 79-82, also before any negation); otherwise the loop result is negated
exactly when the mask meets `BUFED_SORT_DESCENDING` (line 114).  The C locals
`res` are inlined. -/
def bufed_sort_func (sort_mode : Nat) (b1 b2 : EditBuffer) : Int :=
  if ((b1.flags &&& BF_SYSTEM : Nat) : Int) - ((b2.flags &&& BF_SYSTEM : Nat) : Int) ≠ 0 then
    ((b1.flags &&& BF_SYSTEM : Nat) : Int) - ((b2.flags &&& BF_SYSTEM : Nat) : Int)
  else if sort_mode &&& BUFED_SORT_MODIFIED ≠ 0 ∧ b2.modified - b1.modified ≠ 0 then
    b2.modified - b1.modified
  else if sort_mode &&& BUFED_SORT_DESCENDING ≠ 0 then - sortLoop sort_mode b1 b2
  else sortLoop sort_mode b1 b2

/-- A qemacs `StringItem` as bufed uses it: the display label `str` (the buffer
name at build time), the per-row selection flag, and the `void *opaque` slot
holding the weak buffer reference.  The C field `opaque` is a reserved word in
Lean, so the slot is named `ref` here. -/
structure StringItem where
  str : String
  selected : Bool
  ref : Option EditBuffer
deriving DecidableEq

/-- A placeholder row for the out-of-bounds `List.getD` reads; every such read
in the embedding sits under the same bounds check the C code performs, so the
placeholder is never produced. -/
def nullItem : StringItem :=
  { str := "", selected := false, ref := none }

/-- Modelled from the spec: `check_buffer` (qe core, not under `src/`) is the
WeakBufferRef `resolve()` contract of spec 4.1: look the stored identity up in
the registry's live set; return the handle if still present, else clear the
slot and return `none`.  The C function writes its result back through the
`EditBuffer **` it receives; callers of this model store the returned value
back into the slot they passed. -/
def check_buffer (registry : List EditBuffer) (slot : Option EditBuffer) :
    Option EditBuffer :=
  match slot with
  | none => none
  | some b => if b ∈ registry then some b else none

/-- Insert `x` into `l` in front of the first element that does not compare
before it. -/
def insertByComp {α : Type} (cmp : α → α → Int) (x : α) : List α → List α
  | [] => [x]
  | y :: ys => if cmp x y ≤ 0 then x :: y :: ys else y :: insertByComp cmp x ys

/-- Modelled from the spec: `qe_qsort_r` (util.c, not under `src/`) is an
in-place comparison sort.  Modelled as insertion sort over the comparator: a
deterministic comparison sort, which any comparison sort agrees with whenever
the comparator is a strict total order (as `bufed_sort_func` is on buffers
with distinct names). -/
def sortByComp {α : Type} (cmp : α → α → Int) : List α → List α
  | [] => []
  | x :: xs => insertByComp cmp x (sortByComp cmp xs)

/-- `bufed_sort_func` at the `StringItem` level: the C comparator dereferences
both `item->opaque` slots without a liveness check (bufed.c lines 69-72); the
sort runs directly after `build_bufed_list` fills every slot with a live
buffer (lines 124-136), so both slots are `some` whenever the comparator runs
and the catch-all rows-without-buffer branch is unreachable there. -/
def bufed_sort_item (sort_mode : Nat) (i1 i2 : StringItem) : Int :=
  match i1.ref, i2.ref with
  | some b1, some b2 => bufed_sort_func sort_mode b1 b2
  | _, _ => 0

/-- The item-collection part of `build_bufed_list` (bufed.c lines 124-136):
free the previous items, re-enumerate the registry keeping each buffer unless
it is a system buffer under the hide-system filter, wrap each kept buffer in a
fresh `StringItem` (`add_string(&bs->items, b1->name, 0)` with
`item->opaque = b1`; `add_string` in util.c, not under `src/`, creates the item
with a cleared `selected` flag, as spec 3 "ListItem ... created fresh"
requires), then sort with `bufed_sort_func` when a sort order is active. -/
def computeItems (registry : List EditBuffer) (bsflags : Nat) (sort_order : Nat) :
    List StringItem :=
  let base :=
    (registry.filter fun b1 =>
        (b1.flags &&& BF_SYSTEM == 0) || (bsflags &&& BUFED_ALL_VISIBLE != 0)).map
      fun b1 => { str := b1.name, selected := false, ref := some b1 }
  if sort_order ≠ 0 then sortByComp (bufed_sort_item sort_order) base else base

/-- The state bufed.c works on: the `BufedState` fields that carry data
(`flags`, `last_index`, `sort_mode`, `cur_buffer`, `last_buffer`, `items`),
the process-wide `bufed_sort_order` global (kept in the state record, as spec
9 directs, "a single named setting consulted by every ListBuilder call"), the
buffer registry (the `qs->first_buffer` chain), the buffer hosting the panel
(`s->b`), and - modelled from the spec - the window collaborator: the buffer
shown in the window that opened the panel (`window_buffer`, written by
`switch_to_buffer`), that window's `last_buffer` field, and whether the popup
panel is still open (`do_delete_window`). -/
structure PanelState where
  registry : List EditBuffer
  bufed_sort_order : Nat
  flags : Nat
  last_index : Int
  sort_mode : Nat
  cur_buffer : Option EditBuffer
  last_buffer : Option EditBuffer
  window_buffer : Option EditBuffer
  window_last_buffer : Option EditBuffer
  panel_open : Bool
  s_b : EditBuffer
  items : List StringItem
deriving DecidableEq

/-- `build_bufed_list` (bufed.c lines 117-242), its state effects: rebuild
`items` from the registry under the filter and active sort order, copy the
global sort order into `bs->sort_mode` (line 131), and reset `bs->last_index`
to -1 (line 235).  The rendering of the rows into the display buffer is
modelled separately by `render_row`; the scroll-position bookkeeping touches
only the display, not this state. -/
def build_bufed_list (st : PanelState) : PanelState :=
  { st with sort_mode := st.bufed_sort_order,
            items := computeItems st.registry st.flags st.bufed_sort_order,
            last_index := -1 }

/-- `bufed_refresh` (bufed.c lines 440-451): optionally toggle the
all-visible filter bit, then rebuild. -/
def bufed_refresh (st : PanelState) (toggle : Int) : PanelState :=
  let st := if toggle ≠ 0 then { st with flags := st.flags ^^^ BUFED_ALL_VISIBLE } else st
  build_bufed_list st

/-- `bufed_set_sort` (bufed.c lines 453-467): selecting the key already in
force re-derives its descending variant `order * 3`; any other key replaces
the mask; then the last-selected row is invalidated and the list rebuilt. -/
def bufed_set_sort (st : PanelState) (order : Nat) : PanelState :=
  let so := if st.bufed_sort_order = order then order * 3 else order
  build_bufed_list { st with bufed_sort_order := so, last_index := -1 }

/-- `bufed_get_buffer` (bufed.c lines 244-253): reject an out-of-range row
index, else resolve that row's reference (the C call writes the resolution
back through `&bs->items.items[index]->opaque`, hence the updated state). -/
def bufed_get_buffer (st : PanelState) (index : Int) : Option EditBuffer × PanelState :=
  if index < 0 ∨ (st.items.length : Int) ≤ index then (none, st)
  else
    let item := st.items.getD index.toNat nullItem
    let b := check_buffer st.registry item.ref
    (b, { st with items := st.items.set index.toNat { item with ref := b } })

/-- `bufed_select` (bufed.c lines 255-293).  `temp < 0` is Abort: restore the
remembered buffers and close.  `temp ≥ 0` reads the row at `index` (the C code
takes it from `list_get_pos(s)`, the cursor line, passed explicitly here):
out-of-range is a no-op, `temp > 0` debounces against `last_index`, and
otherwise the resolved buffer is switched into the opening window; `temp = 0`
then closes the panel while `temp > 0` (preview) remembers the row.  The
window collaborators (`check_window`, `switch_to_buffer`, `do_delete_window`,
`do_refresh_complete`) are modelled from the spec by the `window_*` and
`panel_open` fields; the opening window is modelled as still valid. -/
def bufed_select (st : PanelState) (index : Int) (temp : Int) : PanelState :=
  if temp < 0 then
    let b := check_buffer st.registry st.cur_buffer
    let lastb := check_buffer st.registry st.last_buffer
    let st := { st with cur_buffer := b, last_buffer := lastb }
    let st :=
      match b with
      | some bb => { st with window_buffer := some bb, window_last_buffer := lastb }
      | none => st
    { st with panel_open := false }
  else if index < 0 ∨ (st.items.length : Int) ≤ index then st
  else if temp > 0 ∧ index = st.last_index then st
  else
    let item := st.items.getD index.toNat nullItem
    let b := check_buffer st.registry item.ref
    let st := { st with items := st.items.set index.toNat { item with ref := b } }
    let lastb := st.cur_buffer
    let st :=
      match b with
      | some bb => { st with window_buffer := some bb, window_last_buffer := lastb }
      | none => st
    if temp ≤ 0 then { st with panel_open := false }
    else { st with last_index := index }

/-- `bufed_clear_modified` (bufed.c lines 408-422): resolve the current row;
on failure (which includes an out-of-range index) return before touching
anything; otherwise clear the buffer's modified flag and rebuild.  The C code
clears the flag on the shared `EditBuffer` object; with value semantics the
registry entry is updated in place. -/
def bufed_clear_modified (st : PanelState) (index : Int) : PanelState :=
  match bufed_get_buffer st index with
  | (none, st') => st'
  | (some b, st') =>
    let registry := st'.registry.map fun x => if x = b then { x with modified := 0 } else x
    build_bufed_list { st' with registry := registry }

/-- `bufed_toggle_read_only` (bufed.c lines 424-438): like
`bufed_clear_modified`, but XOR the read-only flag bit. -/
def bufed_toggle_read_only (st : PanelState) (index : Int) : PanelState :=
  match bufed_get_buffer st index with
  | (none, st') => st'
  | (some b, st') =>
    let registry :=
      st'.registry.map fun x =>
        if x = b then { x with flags := x.flags ^^^ BF_READONLY } else x
    build_bufed_list { st' with registry := registry }

/-- `string_selection_iterate` (bufed.c lines 297-320): run `func_item` on
every selected row in index order, counting them; when none was selected and
the current index is in range, run it on the current row instead.  The
threaded `opaque` context is the type parameter `σ`; the C loop walks the live
`cs->items` array, modelled by folding over the row list with its indices
(`func_item` never changes another row's `selected` flag, so the walk sees the
same rows either way). -/
def string_selection_iterate {σ : Type} (cs : List StringItem) (current_index : Int)
    (func_item : σ → StringItem → Nat → σ) (s0 : σ) : σ :=
  let r :=
    (List.enumFrom 0 cs).foldl
      (fun (acc : σ × Nat) p =>
        if p.2.selected then (func_item acc.1 p.2 p.1, acc.2 + 1) else acc)
      (s0, 0)
  if r.2 = 0 ∧ 0 ≤ current_index ∧ current_index < (cs.length : Int) then
    func_item r.1 (cs.getD current_index.toNat nullItem) current_index.toNat
  else r.1

/-- The rows the selection iterator acts on, as the spec words them: the rows
flagged selected, in ascending index order, or the current row alone when none
is flagged and the current index is in range.  Each target is paired with its
index. -/
def selected_rows (cs : List StringItem) : List (StringItem × Nat) :=
  ((List.enumFrom 0 cs).filter fun p => p.2.selected).map fun p => (p.2, p.1)

/-- The target list of `string_selection_iterate` per the spec's description
(used to characterise the source-level iterator, see
`string_selection_iterate_eq_targets`). -/
def selection_targets (cs : List StringItem) (current_index : Int) :
    List (StringItem × Nat) :=
  if selected_rows cs = [] ∧ 0 ≤ current_index ∧ current_index < (cs.length : Int) then
    [(cs.getD current_index.toNat nullItem, current_index.toNat)]
  else selected_rows cs

/-- Modelled from the spec: `do_kill_buffer(s, name, 0)` (buffer management,
not under `src/`) asks the registry to destroy the buffer of that name -
`destroy(identity)` of spec 6.  The possible external unsaved-changes
confirmation is modelled as confirming. -/
def do_kill_buffer (registry : List EditBuffer) (bufname : String) :
    List EditBuffer :=
  registry.filter fun b => b.name != bufname

/-- `bufed_kill_item` (bufed.c lines 322-339): resolve the row's reference
(`check_buffer` writes the resolution back into the slot); if it resolved and
is not the buffer hosting the panel itself (`b != s->b`), request destruction
by the row's label, clear the row's reference, and drop `bs->cur_buffer` when
it was the killed buffer.  Returns the updated state and the updated row. -/
def bufed_kill_item (st : PanelState) (item : StringItem) :
    PanelState × StringItem :=
  let b := check_buffer st.registry item.ref
  let item := { item with ref := b }
  match b with
  | none => (st, item)
  | some bb =>
    if bb = st.s_b then (st, item)
    else
      ({ st with registry := do_kill_buffer st.registry item.str,
                 cur_buffer := if st.cur_buffer = some bb then none else st.cur_buffer },
       { item with ref := none })

/-- `bufed_kill_item` in the shape `string_selection_iterate` consumes: the C
callback mutates the shared `StringItem` in place; here the updated row is
written back at its index. -/
def bufed_kill_step (st : PanelState) (item : StringItem) (i : Nat) : PanelState :=
  let r := bufed_kill_item st item
  { r.1 with items := r.1.items.set i r.2 }

/-- `bufed_kill_buffer` (bufed.c lines 341-353): iterate the kill action over
the selected rows (or the current row), run the preview-style cursor fix-up
`bufed_select(s, 1)` (which re-reads the same cursor row index), then rebuild
the list. -/
def bufed_kill_buffer (st : PanelState) (index : Int) : PanelState :=
  let st1 := string_selection_iterate st.items index bufed_kill_step st
  let st2 := bufed_select st1 index 1
  build_bufed_list st2

/-- Modelled from the spec: `make_user_path` (util code, not under `src/`)
renders a filename as a user-facing path; modelled as the identity on the
stored filename. -/
def make_user_path (filename : String) : String := filename

/-- The mode-name selection of the render loop (bufed.c lines 195-211): log
and style buffers print fixed names; otherwise the saved mode, else the
default mode, else the syntax mode, else "none". -/
def mode_name_of (b : EditBuffer) : String :=
  if b.flags &&& BF_IS_LOG ≠ 0 then "log"
  else if b.flags &&& BF_IS_STYLE ≠ 0 then "style"
  else
    match b.saved_mode with
    | some m => m
    | none =>
      match b.default_mode with
      | some m => m
      | none =>
        match b.syntax_mode with
        | some m => m
        | none => "none"

/-- The composed mode field (bufed.c lines 212-220): optional data-type prefix
`name+`, the primary mode name, then a comma-joined name for every auxiliary
mode-data entry whose mode exists and is not the saved mode (the C pointer
comparison `md->mode != b1->saved_mode` is modelled on the mode names). -/
def mode_field_of (b : EditBuffer) : String :=
  (match b.data_type_name with
   | some d => d ++ "+"
   | none => "")
  ++ mode_name_of b
  ++ String.join
      (b.mode_data_list.filterMap fun md =>
        match md with
        | some m => if b.saved_mode ≠ some m then some ("," ++ m) else none
        | none => none)

/-- What one iteration of the render loop of `build_bufed_list` (bufed.c
lines 150-233) emits for a row: the row style, the one-character flag field,
and the per-handle columns.  The name column comes from `item->str` and is
emitted for every row; the styling spans and the fixed-width padding are
display formatting and are not modelled. -/
structure RenderedRow where
  style0 : Nat
  flag_field : String
  size_field : Int
  style_bits : Nat
  charset_field : String
  mode_field : String
  filename_field : String
deriving DecidableEq

/-- One iteration of the render loop (bufed.c lines 150-233).  Line 156
resolves the row's reference with `check_buffer`, which may return NULL for a
stale row; line 157 then computes `style0` by reading `b1->flags` through that
possibly-NULL pointer, before the `if (b1)` guards at lines 164 and 188 that
protect the flag field and the per-handle columns.  That unguarded read is the
failure case of this model (`none`); on a live buffer the row renders fully. -/
def render_row (registry : List EditBuffer) (item : StringItem) :
    Option RenderedRow :=
  let b1 := check_buffer registry item.ref
  match b1 with
  | none => none
  | some b =>
    let style0 := if b.flags &&& BF_SYSTEM ≠ 0 then BUFED_STYLE_SYSTEM else 0
    let flag_field :=
      if b.flags &&& BF_SYSTEM ≠ 0 then "S"
      else if b.modified ≠ 0 then "*"
      else if b.flags &&& BF_READONLY ≠ 0 then "%"
      else ""
    some { style0 := style0, flag_field := flag_field, size_field := b.total_size,
           style_bits := b.style_bytes &&& 7, charset_field := b.charset,
           mode_field := mode_field_of b,
           filename_field := make_user_path b.filename }

/-- The whole render loop: every row in order; a row whose unguarded
dereference faults aborts the rebuild (propagated `none`). -/
def render_rows (registry : List EditBuffer) (items : List StringItem) :
    Option (List RenderedRow) :=
  items.mapM (render_row registry)

/-- A fresh panel over the given registry, as `do_buffer_list` opens it:
default filter, no sort, no remembered row. -/
def mkPanel (registry : List EditBuffer) (s_b : EditBuffer) : PanelState :=
  { registry := registry, bufed_sort_order := 0, flags := 0, last_index := -1,
    sort_mode := 0, cur_buffer := none, last_buffer := none, window_buffer := none,
    window_last_buffer := none, panel_open := true, s_b := s_b, items := [] }

/-- A system buffer (the bufed panel's own display buffer). -/
def c1sys : EditBuffer := mkBuf "*bufed*" "" BF_SYSTEM 0 0 0

/-- An ordinary, non-system buffer. -/
def c1plain : EditBuffer := mkBuf "x.txt" "" 0 0 0 0

/-- An unmodified ordinary buffer. -/
def c2unmod : EditBuffer := mkBuf "a.txt" "" 0 0 0 0

/-- A modified ordinary buffer. -/
def c2mod : EditBuffer := mkBuf "b.txt" "" 0 1 0 0

/-- Two unmodified buffers that differ in modification time. -/
def c2t1 : EditBuffer := mkBuf "t1" "" 0 0 5 0

/-- See `c2t1`. -/
def c2t2 : EditBuffer := mkBuf "t2" "" 0 0 9 0

/-- A modified buffer for the repeated-sort scenario. -/
def c3A : EditBuffer := mkBuf "a" "" 0 1 0 0

/-- An unmodified buffer for the repeated-sort scenario. -/
def c3B : EditBuffer := mkBuf "b" "" 0 0 0 0

/-- A panel over `c3A` and `c3B` with no sort order in force. -/
def st3c : PanelState := mkPanel [c3A, c3B] c1sys

/-- Three ordinary buffers and two system buffers for the filter scenario. -/
def n1 : EditBuffer := mkBuf "one" "" 0 0 0 0

/-- See `n1`. -/
def n2 : EditBuffer := mkBuf "two" "" 0 0 0 0

/-- See `n1`. -/
def n3 : EditBuffer := mkBuf "three" "" 0 0 0 0

/-- A system buffer of the filter scenario. -/
def sy1 : EditBuffer := mkBuf "*bufed*" "" BF_SYSTEM 0 0 0

/-- A system buffer of the filter scenario. -/
def sy2 : EditBuffer := mkBuf "*trace*" "" BF_SYSTEM 0 0 0

/-- The filter-scenario panel: 3 non-system and 2 system buffers, hide-system
filter, no sort. -/
def st4 : PanelState := mkPanel [n1, n2, n3, sy1, sy2] sy1

/-- A buffer whose filename starts with the byte of the letter a. -/
def c5A : EditBuffer := mkBuf "abuf" "a" 0 0 0 0

/-- A buffer whose filename starts with the byte of the letter b. -/
def c5B : EditBuffer := mkBuf "bbuf" "b" 0 0 0 0

/-- A buffer with no filename. -/
def c5empty : EditBuffer := mkBuf "ebuf" "" 0 0 0 0

/-- An ordinary buffer living beside the panel's display buffer. -/
def c6other : EditBuffer := mkBuf "doc" "" 0 0 0 0

/-- The buffer hosting the bufed panel itself. -/
def c6panel : EditBuffer := mkBuf "*bufed*" "" BF_SYSTEM 0 0 0

/-- A panel whose registry holds its own display buffer. -/
def c6st : PanelState :=
  { mkPanel [c6other, c6panel] c6panel with cur_buffer := some c6other }

/-- A row whose reference resolves to the panel's own display buffer. -/
def c6item : StringItem := { str := "*bufed*", selected := false, ref := some c6panel }

/-- Kill-scenario buffer, flagged selected in the row list. -/
def bA : EditBuffer := mkBuf "ka" "" 0 0 0 0

/-- Kill-scenario buffer, flagged selected in the row list. -/
def bB : EditBuffer := mkBuf "kb" "" 0 0 0 0

/-- Kill-scenario buffer on the unflagged current row. -/
def bC : EditBuffer := mkBuf "kc" "" 0 0 0 0

/-- The buffer hosting the kill-scenario panel. -/
def panelBuf : EditBuffer := mkBuf "*bufed*" "" BF_SYSTEM 0 0 0

/-- The kill-scenario rows: rows 0 and 1 flagged selected, row 2 not. -/
def killItems : List StringItem :=
  [{ str := "ka", selected := true, ref := some bA },
   { str := "kb", selected := true, ref := some bB },
   { str := "kc", selected := false, ref := some bC }]

/-- The kill-scenario panel state. -/
def killSt : PanelState :=
  { mkPanel [bA, bB, bC, panelBuf] panelBuf with
      items := killItems, cur_buffer := some bC }

/-- A live buffer present in the render-scenario registry. -/
def c8live : EditBuffer := mkBuf "live" "f.txt" 0 0 0 0

/-- A buffer destroyed externally: absent from the render-scenario registry. -/
def c8dead : EditBuffer := mkBuf "dead" "" 0 0 0 0

/-- The render-scenario registry: only the live buffer. -/
def c8reg : List EditBuffer := [c8live]

/-- A stale row: its weak reference names a buffer the registry no longer
holds, so it does not resolve. -/
def c8staleItem : StringItem := { str := "dead", selected := false, ref := some c8dead }

/-- A fresh row over the live buffer. -/
def c8liveItem : StringItem := { str := "live", selected := false, ref := some c8live }

/-- An ordinary buffer of the out-of-range scenario. -/
def b9 : EditBuffer := mkBuf "doc9" "" 0 0 0 0

/-- The panel buffer of the out-of-range scenario. -/
def p9 : EditBuffer := mkBuf "*bufed*" "" BF_SYSTEM 0 0 0

/-- The single, unselected row of the out-of-range scenario. -/
def it9 : StringItem := { str := "doc9", selected := false, ref := some b9 }

/-- The out-of-range-scenario panel: one row, a remembered row index 0. -/
def cst9 : PanelState :=
  { mkPanel [b9, p9] p9 with items := [it9], last_index := 0 }

theorem mem_insertByComp {α : Type} (cmp : α → α → Int) (x a : α) :
    ∀ l : List α, a ∈ insertByComp cmp x l ↔ a = x ∨ a ∈ l
  | [] => by simp [insertByComp]
  | y :: ys => by
    simp only [insertByComp]
    split
    · simp [List.mem_cons]
    · simp only [List.mem_cons, mem_insertByComp cmp x a ys]
      tauto

theorem mem_sortByComp {α : Type} (cmp : α → α → Int) (a : α) :
    ∀ l : List α, a ∈ sortByComp cmp l ↔ a ∈ l
  | [] => Iff.rfl
  | x :: xs => by
    simp [sortByComp, mem_insertByComp, mem_sortByComp cmp a xs, List.mem_cons]

theorem all_sortByComp {α : Type} (cmp : α → α → Int) (p : α → Bool) (l : List α) :
    (sortByComp cmp l).all p = l.all p := by
  rw [Bool.eq_iff_iff, List.all_eq_true, List.all_eq_true]
  constructor <;> intro h a ha
  · exact h a ((mem_sortByComp cmp a l).mpr ha)
  · exact h a ((mem_sortByComp cmp a l).mp ha)

theorem sort_func_of_eq_system (mode : Nat) (b1 b2 : EditBuffer)
    (hsys : b1.flags &&& BF_SYSTEM = b2.flags &&& BF_SYSTEM) :
    bufed_sort_func mode b1 b2 =
      if mode &&& BUFED_SORT_MODIFIED ≠ 0 ∧ b2.modified - b1.modified ≠ 0 then
        b2.modified - b1.modified
      else if mode &&& BUFED_SORT_DESCENDING ≠ 0 then - sortLoop mode b1 b2
      else sortLoop mode b1 b2 := by
  unfold bufed_sort_func
  rw [hsys]
  simp

theorem sort_func_desc_variant (k : Nat)
    (hk : k = BUFED_SORT_MODIFIED ∨ k = BUFED_SORT_TIME ∨ k = BUFED_SORT_NAME ∨
          k = BUFED_SORT_FILENAME ∨ k = BUFED_SORT_SIZE)
    (b1 b2 : EditBuffer)
    (hsys : b1.flags &&& BF_SYSTEM = b2.flags &&& BF_SYSTEM)
    (hmod : k = BUFED_SORT_MODIFIED → b1.modified = b2.modified) :
    bufed_sort_func (k * 3) b1 b2 = - bufed_sort_func k b1 b2 := by
  rw [sort_func_of_eq_system _ _ _ hsys, sort_func_of_eq_system _ _ _ hsys]
  rcases hk with h | h | h | h | h <;> subst h
  · have hd : b2.modified - b1.modified = 0 := by rw [hmod rfl]; ring
    simp [hd, sortLoop, BUFED_SORT_MODIFIED, BUFED_SORT_TIME, BUFED_SORT_SIZE,
          BUFED_SORT_FILENAME, BUFED_SORT_DESCENDING,
          show (3 : Nat) &&& 4 = 0 from by decide,
          show (3 : Nat) &&& 256 = 0 from by decide,
          show (3 : Nat) &&& 64 = 0 from by decide,
          show (3 : Nat) &&& 43690 = 2 from by decide,
          show (1 : Nat) &&& 4 = 0 from by decide,
          show (1 : Nat) &&& 256 = 0 from by decide,
          show (1 : Nat) &&& 64 = 0 from by decide,
          show (1 : Nat) &&& 43690 = 0 from by decide]
  · simp [sortLoop, BUFED_SORT_MODIFIED, BUFED_SORT_TIME, BUFED_SORT_SIZE,
          BUFED_SORT_FILENAME, BUFED_SORT_DESCENDING,
          show (12 : Nat) &&& 1 = 0 from by decide,
          show (12 : Nat) &&& 4 = 4 from by decide,
          show (12 : Nat) &&& 256 = 0 from by decide,
          show (12 : Nat) &&& 64 = 0 from by decide,
          show (12 : Nat) &&& 43690 = 8 from by decide,
          show (4 : Nat) &&& 1 = 0 from by decide,
          show (4 : Nat) &&& 4 = 4 from by decide,
          show (4 : Nat) &&& 256 = 0 from by decide,
          show (4 : Nat) &&& 64 = 0 from by decide,
          show (4 : Nat) &&& 43690 = 0 from by decide]
  · simp [sortLoop, BUFED_SORT_MODIFIED, BUFED_SORT_TIME, BUFED_SORT_NAME,
          BUFED_SORT_SIZE, BUFED_SORT_FILENAME, BUFED_SORT_DESCENDING,
          show (48 : Nat) &&& 1 = 0 from by decide,
          show (48 : Nat) &&& 4 = 0 from by decide,
          show (48 : Nat) &&& 256 = 0 from by decide,
          show (48 : Nat) &&& 64 = 0 from by decide,
          show (48 : Nat) &&& 43690 = 32 from by decide,
          show (16 : Nat) &&& 1 = 0 from by decide,
          show (16 : Nat) &&& 4 = 0 from by decide,
          show (16 : Nat) &&& 256 = 0 from by decide,
          show (16 : Nat) &&& 64 = 0 from by decide,
          show (16 : Nat) &&& 43690 = 0 from by decide]
  · simp [sortLoop, BUFED_SORT_MODIFIED, BUFED_SORT_TIME, BUFED_SORT_SIZE,
          BUFED_SORT_FILENAME, BUFED_SORT_DESCENDING,
          show (192 : Nat) &&& 1 = 0 from by decide,
          show (192 : Nat) &&& 4 = 0 from by decide,
          show (192 : Nat) &&& 256 = 0 from by decide,
          show (192 : Nat) &&& 64 = 64 from by decide,
          show (192 : Nat) &&& 43690 = 128 from by decide,
          show (64 : Nat) &&& 1 = 0 from by decide,
          show (64 : Nat) &&& 4 = 0 from by decide,
          show (64 : Nat) &&& 256 = 0 from by decide,
          show (64 : Nat) &&& 64 = 64 from by decide,
          show (64 : Nat) &&& 43690 = 0 from by decide]
  · simp [sortLoop, BUFED_SORT_MODIFIED, BUFED_SORT_TIME, BUFED_SORT_SIZE,
          BUFED_SORT_FILENAME, BUFED_SORT_DESCENDING,
          show (768 : Nat) &&& 1 = 0 from by decide,
          show (768 : Nat) &&& 4 = 0 from by decide,
          show (768 : Nat) &&& 256 = 256 from by decide,
          show (768 : Nat) &&& 64 = 0 from by decide,
          show (768 : Nat) &&& 43690 = 512 from by decide,
          show (256 : Nat) &&& 1 = 0 from by decide,
          show (256 : Nat) &&& 4 = 0 from by decide,
          show (256 : Nat) &&& 256 = 256 from by decide,
          show (256 : Nat) &&& 64 = 0 from by decide,
          show (256 : Nat) &&& 43690 = 0 from by decide]

theorem iterate_fold_eq {σ : Type} (f : σ → StringItem → Nat → σ) :
    ∀ (cs : List StringItem) (n : Nat) (s0 : σ) (c0 : Nat),
      (List.enumFrom n cs).foldl
          (fun (acc : σ × Nat) p =>
            if p.2.selected then (f acc.1 p.2 p.1, acc.2 + 1) else acc)
          (s0, c0)
        = ((((List.enumFrom n cs).filter fun p => p.2.selected).map
              fun p => (p.2, p.1)).foldl (fun s p => f s p.1 p.2) s0,
           c0 + ((List.enumFrom n cs).filter fun p => p.2.selected).length)
  | [], n, s0, c0 => by simp [List.enumFrom]
  | x :: xs, n, s0, c0 => by
    by_cases hx : x.selected
    · simp only [List.enumFrom, List.foldl_cons, List.filter_cons, hx, if_pos,
                 List.map_cons, List.length_cons]
      rw [iterate_fold_eq f xs (n + 1) (f s0 x n) (c0 + 1)]
      exact Prod.ext rfl (by omega)
    · simp only [List.enumFrom, List.foldl_cons, List.filter_cons, hx]
      simp only [Bool.false_eq_true, if_false]
      exact iterate_fold_eq f xs (n + 1) s0 c0

theorem iterate_eq_targets {σ : Type} (cs : List StringItem) (ci : Int)
    (f : σ → StringItem → Nat → σ) (s0 : σ) :
    string_selection_iterate cs ci f s0
      = (selection_targets cs ci).foldl (fun s p => f s p.1 p.2) s0 := by
  unfold string_selection_iterate selection_targets selected_rows
  rw [iterate_fold_eq f cs 0 s0 0]
  by_cases h : ((List.enumFrom 0 cs).filter fun p => p.2.selected) = []
  · by_cases hb : 0 ≤ ci ∧ ci < (cs.length : Int)
    · simp [h, hb]
    · simp [h, hb]
  · have hlen : ((List.enumFrom 0 cs).filter fun p => p.2.selected).length ≠ 0 := by
      simpa [List.length_eq_zero] using h
    have hmap : ¬ (((List.enumFrom 0 cs).filter fun p => p.2.selected).map
        fun p => (p.2, p.1)) = [] := by
      simpa [List.map_eq_nil_iff] using h
    simp [hlen, hmap]

theorem mem_enumFrom_snd :
    ∀ (cs : List StringItem) (n : Nat) (p : Nat × StringItem),
      p ∈ List.enumFrom n cs → p.2 ∈ cs
  | [], _, _, h => by simp [List.enumFrom] at h
  | x :: xs, n, p, h => by
    simp only [List.enumFrom, List.mem_cons] at h
    rcases h with h | h
    · subst h; exact List.mem_cons_self _ _
    · exact List.mem_cons_of_mem _ (mem_enumFrom_snd xs (n + 1) p h)

theorem selected_rows_eq_nil (cs : List StringItem)
    (h : cs.all (fun it => !it.selected) = true) : selected_rows cs = [] := by
  unfold selected_rows
  rw [List.map_eq_nil_iff, List.filter_eq_nil_iff]
  intro p hp
  have := (List.all_eq_true.mp h) p.2 (mem_enumFrom_snd cs 0 p hp)
  simpa using this

theorem mem_computeItems (registry : List EditBuffer) (bsflags order : Nat)
    (b : EditBuffer) :
    (∃ it ∈ computeItems registry bsflags order, it.ref = some b)
      ↔ b ∈ registry ∧
        ((b.flags &&& BF_SYSTEM == 0) || (bsflags &&& BUFED_ALL_VISIBLE != 0)) = true := by
  unfold computeItems
  by_cases h : order ≠ 0 <;>
    simp [h, mem_sortByComp, List.mem_map, List.mem_filter]

/-- C1: for every pair of buffers compared by `bufed_sort_func`, under every
sort mask (including any mask meeting `BUFED_SORT_DESCENDING`), if exactly one
of the two has the system flag then the system buffer compares after the
non-system buffer (positive result when the first is system, negative when the
second is); the early return at bufed.c line 77 precedes the negation at line
114, so the descending flag never negates this result. -/
theorem bufed_system_buffers_sort_last (sort_mode : Nat) (b1 b2 : EditBuffer) :
    (b1.flags &&& BF_SYSTEM ≠ 0 → b2.flags &&& BF_SYSTEM = 0 →
      0 < bufed_sort_func sort_mode b1 b2) ∧
    (b1.flags &&& BF_SYSTEM = 0 → b2.flags &&& BF_SYSTEM ≠ 0 →
      bufed_sort_func sort_mode b1 b2 < 0) := by
  constructor
  · intro h1 h2
    have e1 : b1.flags &&& BF_SYSTEM = 1 := by
      simp only [BF_SYSTEM] at h1 ⊢
      rw [Nat.and_one_is_mod] at h1 ⊢
      omega
    unfold bufed_sort_func
    rw [e1, h2]
    norm_num
  · intro h1 h2
    have e2 : b2.flags &&& BF_SYSTEM = 1 := by
      simp only [BF_SYSTEM] at h2 ⊢
      rw [Nat.and_one_is_mod] at h2 ⊢
      omega
    unfold bufed_sort_func
    rw [e2, h1]
    norm_num

/-- C1 witness: at the all-descending mask, a system buffer compares after a
non-system buffer in both argument orders. -/
theorem bufed_system_buffers_sort_last_witness :
    0 < bufed_sort_func BUFED_SORT_DESCENDING c1sys c1plain ∧
    bufed_sort_func BUFED_SORT_DESCENDING c1plain c1sys < 0 :=
  ⟨(bufed_system_buffers_sort_last BUFED_SORT_DESCENDING c1sys c1plain).1
      (by decide) (by decide),
   (bufed_system_buffers_sort_last BUFED_SORT_DESCENDING c1plain c1sys).2
      (by decide) (by decide)⟩

/-- C2 counterexample: under the reachable descending modified mask 3
(`bufed_set_sort` yields `BUFED_SORT_MODIFIED * 3`), two non-system buffers
that differ in the modified flag get the raw rule-2 result `b2->modified -
b1->modified = 1`, not its negation: the `return res` at bufed.c line 81
bypasses the negation at line 114, contradicting the claim that rule 2's
result is negated under a descending mask. -/
theorem bufed_modified_rule_not_negated_cex :
    (3 : Nat) &&& BUFED_SORT_DESCENDING ≠ 0 ∧
    (3 : Nat) &&& BUFED_SORT_MODIFIED ≠ 0 ∧
    c2unmod.flags &&& BF_SYSTEM = c2mod.flags &&& BF_SYSTEM ∧
    c2mod.modified - c2unmod.modified = 1 ∧
    bufed_sort_func 3 c2unmod c2mod = 1 ∧
    bufed_sort_func 3 c2unmod c2mod ≠ -(c2mod.modified - c2unmod.modified) := by
  decide

/-- C2 (amended): for every sort mask with the descending flag set and every
pair tying on rule 1, a result produced by rules 3-4 (the loop) is negated by
the descending flag; but a result produced by the modified-first rule 2 is
returned as computed - rule 2, like rule 1, is never negated. -/
theorem bufed_descending_negates_loop_rules (mode : Nat) (b1 b2 : EditBuffer)
    (hsys : b1.flags &&& BF_SYSTEM = b2.flags &&& BF_SYSTEM)
    (hdesc : mode &&& BUFED_SORT_DESCENDING ≠ 0) :
    (mode &&& BUFED_SORT_MODIFIED ≠ 0 ∧ b2.modified - b1.modified ≠ 0 →
      bufed_sort_func mode b1 b2 = b2.modified - b1.modified) ∧
    ((mode &&& BUFED_SORT_MODIFIED = 0 ∨ b1.modified = b2.modified) →
      bufed_sort_func mode b1 b2 = - sortLoop mode b1 b2) := by
  constructor
  · intro hm
    rw [sort_func_of_eq_system mode b1 b2 hsys, if_pos hm]
  · intro hm
    have hnot : ¬ (mode &&& BUFED_SORT_MODIFIED ≠ 0 ∧ b2.modified - b1.modified ≠ 0) := by
      rcases hm with hm | hm
      · simp [hm]
      · simp [hm]
    rw [sort_func_of_eq_system mode b1 b2 hsys, if_neg hnot, if_pos hdesc]

/-- C2 witness: under the descending time mask 12 (`BUFED_SORT_TIME * 3`), a
pair tying on system and modified gets the negated loop result. -/
theorem bufed_descending_negates_loop_rules_witness :
    bufed_sort_func 12 c2t1 c2t2 = - sortLoop 12 c2t1 c2t2 :=
  (bufed_descending_negates_loop_rules 12 c2t1 c2t2 (by decide) (by decide)).2
    (Or.inl (by decide))

theorem bufed_set_sort_order_eq (st : PanelState) (k : Nat) :
    (bufed_set_sort st k).bufed_sort_order
      = if st.bufed_sort_order = k then k * 3 else k := rfl

theorem bufed_set_sort_registry_eq (st : PanelState) (k : Nat) :
    (bufed_set_sort st k).registry = st.registry := rfl

theorem bufed_set_sort_flags_eq (st : PanelState) (k : Nat) :
    (bufed_set_sort st k).flags = st.flags := rfl

theorem bufed_set_sort_items_eq (st : PanelState) (k : Nat) :
    (bufed_set_sort st k).items
      = computeItems st.registry st.flags
          (if st.bufed_sort_order = k then k * 3 else k) := rfl

/-- C3 (amended): on a fixed buffer set, invoking the same single-key sort
command a third time restores the sort order (and hence the item list) of the
first invocation; the second invocation re-derives the descending variant of
the mask, which reverses every pairwise comparison decided by rules 3-4 (pairs
tying on the system flag and, for the modified key, on the modified flag), but
a pair decided by rule 1 (system) or by the modified-first rule 2 keeps the
same comparison result, so the second application is not the full reversal the
original claim states. -/
theorem bufed_set_sort_toggle (st : PanelState) (k : Nat)
    (hk : k = BUFED_SORT_MODIFIED ∨ k = BUFED_SORT_TIME ∨ k = BUFED_SORT_NAME ∨
          k = BUFED_SORT_FILENAME ∨ k = BUFED_SORT_SIZE) :
    (bufed_set_sort (bufed_set_sort (bufed_set_sort st k) k) k).items
        = (bufed_set_sort st k).items ∧
    (bufed_set_sort (bufed_set_sort st k) k).bufed_sort_order
        ≠ (bufed_set_sort st k).bufed_sort_order ∧
    ∀ b1 b2 : EditBuffer,
      b1.flags &&& BF_SYSTEM = b2.flags &&& BF_SYSTEM →
      (k = BUFED_SORT_MODIFIED → b1.modified = b2.modified) →
      bufed_sort_func (bufed_set_sort (bufed_set_sort st k) k).bufed_sort_order b1 b2
        = - bufed_sort_func (bufed_set_sort st k).bufed_sort_order b1 b2 := by
  have hk0 : k ≠ 0 := by rcases hk with h | h | h | h | h <;> subst h <;> decide
  have h3 : ¬ (k * 3 = k) := by omega
  by_cases h : st.bufed_sort_order = k
  · have e1 : (bufed_set_sort st k).bufed_sort_order = k * 3 := by
      rw [bufed_set_sort_order_eq, if_pos h]
    have e2 : (bufed_set_sort (bufed_set_sort st k) k).bufed_sort_order = k := by
      rw [bufed_set_sort_order_eq, e1, if_neg h3]
    refine ⟨?_, ?_, ?_⟩
    · rw [bufed_set_sort_items_eq, bufed_set_sort_items_eq,
          bufed_set_sort_registry_eq, bufed_set_sort_registry_eq,
          bufed_set_sort_flags_eq, bufed_set_sort_flags_eq,
          e2, if_pos rfl, if_pos h]
    · rw [e1, e2]; exact fun hq => h3 hq.symm
    · intro b1 b2 hsys hmod
      rw [e1, e2]
      have := sort_func_desc_variant k hk b1 b2 hsys hmod
      omega
  · have e1 : (bufed_set_sort st k).bufed_sort_order = k := by
      rw [bufed_set_sort_order_eq, if_neg h]
    have e2 : (bufed_set_sort (bufed_set_sort st k) k).bufed_sort_order = k * 3 := by
      rw [bufed_set_sort_order_eq, e1, if_pos rfl]
    refine ⟨?_, ?_, ?_⟩
    · rw [bufed_set_sort_items_eq, bufed_set_sort_items_eq,
          bufed_set_sort_registry_eq, bufed_set_sort_registry_eq,
          bufed_set_sort_flags_eq, bufed_set_sort_flags_eq,
          e2, if_neg h3, if_neg h]
    · rw [e1, e2]; exact h3
    · intro b1 b2 hsys hmod
      rw [e1, e2]
      exact sort_func_desc_variant k hk b1 b2 hsys hmod

/-- C3 counterexample: on the fixed set of the two non-system buffers `c3A`
(modified) and `c3B` (unmodified), sorting by the modified key twice does not
reverse the first order: the second application yields the same order, because
the pair is decided by the never-negated modified-first rule. -/
theorem bufed_set_sort_twice_not_reversed_cex :
    (bufed_set_sort (bufed_set_sort st3c BUFED_SORT_MODIFIED) BUFED_SORT_MODIFIED).items
      ≠ ((bufed_set_sort st3c BUFED_SORT_MODIFIED).items).reverse := by
  decide

/-- C3 witness: the amended toggle behaviour at the time key on the concrete
panel `st3c`, including the pairwise negation on a pair tying on the modified
flag. -/
theorem bufed_set_sort_toggle_witness :
    (bufed_set_sort (bufed_set_sort (bufed_set_sort st3c BUFED_SORT_TIME)
          BUFED_SORT_TIME) BUFED_SORT_TIME).items
        = (bufed_set_sort st3c BUFED_SORT_TIME).items ∧
    (bufed_set_sort (bufed_set_sort st3c BUFED_SORT_TIME) BUFED_SORT_TIME).bufed_sort_order
        ≠ (bufed_set_sort st3c BUFED_SORT_TIME).bufed_sort_order ∧
    bufed_sort_func
        (bufed_set_sort (bufed_set_sort st3c BUFED_SORT_TIME) BUFED_SORT_TIME).bufed_sort_order
        c2t1 c2t2
      = - bufed_sort_func (bufed_set_sort st3c BUFED_SORT_TIME).bufed_sort_order c2t1 c2t2 := by
  have h := bufed_set_sort_toggle st3c BUFED_SORT_TIME (Or.inr (Or.inl rfl))
  exact ⟨h.1, h.2.1, h.2.2 c2t1 c2t2 (by decide) (fun hq => by exact absurd hq (by decide))⟩

theorem build_bufed_list_items_eq (st : PanelState) :
    (build_bufed_list st).items
      = computeItems st.registry st.flags st.bufed_sort_order := rfl

theorem build_bufed_list_registry_eq (st : PanelState) :
    (build_bufed_list st).registry = st.registry := rfl

theorem computeItems_all_unselected (registry : List EditBuffer) (bsflags order : Nat) :
    ((computeItems registry bsflags order).all fun it => !it.selected) = true := by
  unfold computeItems
  by_cases h : order ≠ 0 <;> simp [h, all_sortByComp, List.all_eq_true, List.mem_map]
  · rintro it b1 - - rfl
    rfl
  · rintro it b1 - - rfl
    rfl

/-- C4: after any rebuild the item collection holds exactly the registry
handles passing the active filter - for every handle in the registry, it
appears on a row if and only if it is not a system buffer or the filter shows
all; and on the concrete registry of 3 non-system plus 2 system buffers, the
first build shows 3 rows, toggle-all-visible shows 5, and toggling again
returns to 3. -/
theorem bufed_filter_invariant :
    (∀ (st : PanelState) (b : EditBuffer), b ∈ st.registry →
      ((∃ it ∈ (build_bufed_list st).items, it.ref = some b)
        ↔ (b.flags &&& BF_SYSTEM = 0 ∨ st.flags &&& BUFED_ALL_VISIBLE ≠ 0))) ∧
    (build_bufed_list st4).items.length = 3 ∧
    (bufed_refresh st4 1).items.length = 5 ∧
    (bufed_refresh (bufed_refresh st4 1) 1).items.length = 3 := by
  refine ⟨?_, by decide, by decide, by decide⟩
  intro st b hb
  rw [build_bufed_list_items_eq]
  have h := mem_computeItems st.registry st.flags st.bufed_sort_order b
  constructor
  · intro he
    have hp := (h.mp he).2
    simpa using hp
  · intro hp
    apply h.mpr
    refine ⟨hb, ?_⟩
    simpa using hp

/-- C4 witness: the filter-invariant instance for the non-system buffer `n1`
on the concrete 5-buffer panel. -/
theorem bufed_filter_invariant_witness :
    (∃ it ∈ (build_bufed_list st4).items, it.ref = some n1)
      ↔ (n1.flags &&& BF_SYSTEM = 0 ∨ st4.flags &&& BUFED_ALL_VISIBLE ≠ 0) :=
  bufed_filter_invariant.1 st4 n1 (by decide)

/-- C5: evaluation of the comparator at the failing input of the filename
rule.  With only the filename key active and two non-system buffers whose
non-empty filenames are "a" and "b", collation orders "a" before "b"
(`qe_strcollate = -1`), but `bufed_sort_func` returns `*b2->filename -
*b1->filename = 1`: the buffer with filename "a" compares after the buffer
with filename "b", i.e. descending by first byte, contradicting the claimed
ascending collation.  The no-filename-last half of the claim does hold, as the
last two conjuncts show. -/
theorem bufed_filename_firstbyte_eval :
    c5A.flags &&& BF_SYSTEM = c5B.flags &&& BF_SYSTEM ∧
    c5A.filename ≠ "" ∧ c5B.filename ≠ "" ∧
    qe_strcollate c5A.filename c5B.filename = -1 ∧
    bufed_sort_func BUFED_SORT_FILENAME c5A c5B = 1 ∧
    bufed_sort_func BUFED_SORT_FILENAME c5B c5A = -1 ∧
    0 < bufed_sort_func BUFED_SORT_FILENAME c5empty c5A ∧
    bufed_sort_func BUFED_SORT_FILENAME c5A c5empty < 0 := by
  decide

/-- C6: a kill request whose row resolves to the buffer hosting the panel's
own display is a complete no-op - `bufed_kill_item` returns the state and the
row unchanged: no destruction request, no cleared reference, registry and
tracked buffers untouched. -/
theorem bufed_kill_self_noop (st : PanelState) (item : StringItem)
    (h1 : item.ref = some st.s_b) (h2 : st.s_b ∈ st.registry) :
    bufed_kill_item st item = (st, item) := by
  have hc : check_buffer st.registry item.ref = some st.s_b := by
    rw [h1]
    simp [check_buffer, h2]
  have hi : { item with ref := some st.s_b } = item := by
    rw [← h1]
  simp only [bufed_kill_item, hc]
  simp [hi]

/-- C6 witness: the no-op at the concrete panel whose row references the
panel's own display buffer. -/
theorem bufed_kill_self_noop_witness :
    bufed_kill_item c6st c6item = (c6st, c6item) :=
  bufed_kill_self_noop c6st c6item (by decide) (by decide)

/-- C7: the selection iterator applies its action exactly to the selected
rows in ascending index order, or exactly to the current row when none is
selected and the index is in range (`string_selection_iterate` equals the
fold of the action over `selection_targets`); and in the concrete kill
scenario - rows 0 and 1 flagged, unflagged current row 2 - the kill pass
destroys exactly the two flagged buffers, leaving the current row's buffer in
the registry with its row reference intact. -/
theorem bufed_selection_iterate_spec :
    (∀ (σ : Type) (cs : List StringItem) (ci : Int)
        (f : σ → StringItem → Nat → σ) (s0 : σ),
      string_selection_iterate cs ci f s0
        = (selection_targets cs ci).foldl (fun s p => f s p.1 p.2) s0) ∧
    (string_selection_iterate killItems 2 bufed_kill_step killSt).registry
        = [bC, panelBuf] ∧
    ((string_selection_iterate killItems 2 bufed_kill_step killSt).items.getD 2
        nullItem).ref = some bC := by
  refine ⟨fun σ cs ci f s0 => iterate_eq_targets cs ci f s0, ?_, ?_⟩ <;> decide

/-- C8: evaluation of the render loop at a stale row.  The row references a
buffer absent from the registry, so `check_buffer` returns `none`; the loop
then reads `b1->flags` for `style0` (bufed.c line 157) through that NULL
result, before its own `if (b1)` guards - the render faults (`none`) instead
of emitting the claimed inert row, and the whole rebuild aborts; a resolving
row renders fine. -/
theorem bufed_render_stale_row_faults :
    check_buffer c8reg c8staleItem.ref = none ∧
    render_row c8reg c8staleItem = none ∧
    (render_row c8reg c8liveItem).isSome = true ∧
    render_rows c8reg [c8liveItem, c8staleItem] = none := by
  decide

/-- C9 (amended): with an out-of-range row index, `bufed_get_buffer` returns
nothing and touches nothing; select and preview (`temp ≥ 0`) are complete
no-ops; clear-modified and toggle-read-only are complete no-ops (they return
before any mutation or rebuild); and kill with no selected rows applies its
action to no row and destroys no buffer - but, unlike the other commands,
`bufed_kill_buffer` still runs its unconditional cursor fix-up and rebuild, so
it is not a complete state no-op (see the counterexample). -/
theorem bufed_out_of_range_noop (st : PanelState) (index : Int)
    (h : index < 0 ∨ (st.items.length : Int) ≤ index) :
    bufed_get_buffer st index = (none, st) ∧
    (∀ temp : Int, 0 ≤ temp → bufed_select st index temp = st) ∧
    bufed_clear_modified st index = st ∧
    bufed_toggle_read_only st index = st ∧
    (st.items.all (fun it => !it.selected) = true →
      (bufed_kill_buffer st index).registry = st.registry) := by
  have hg : bufed_get_buffer st index = (none, st) := by
    unfold bufed_get_buffer
    rw [if_pos h]
  have hsel : ∀ temp : Int, 0 ≤ temp → bufed_select st index temp = st := by
    intro temp htemp
    unfold bufed_select
    rw [if_neg (by omega : ¬ temp < 0), if_pos h]
  refine ⟨hg, hsel, ?_, ?_, ?_⟩
  · unfold bufed_clear_modified
    rw [hg]
  · unfold bufed_toggle_read_only
    rw [hg]
  · intro hall
    have hi : string_selection_iterate st.items index bufed_kill_step st = st := by
      rw [iterate_eq_targets]
      unfold selection_targets
      rw [selected_rows_eq_nil st.items hall]
      rw [if_neg (by rintro ⟨-, h1, h2⟩; omega)]
      rfl
    unfold bufed_kill_buffer
    simp only [hi, hsel 1 (by omega : (0 : Int) ≤ 1)]
    exact build_bufed_list_registry_eq st

/-- C9 counterexample: the claim's "kill on the current row is a no-op that
mutates no state" fails - on a panel with one unselected row, a remembered row
index 0 and the out-of-range index 5, `bufed_kill_buffer` destroys nothing but
still rebuilds, resetting the remembered index, so the state changes. -/
theorem bufed_kill_out_of_range_rebuilds_cex :
    bufed_kill_buffer cst9 5 ≠ cst9 := by
  decide

/-- C9 witness: the amended no-op behaviour at the concrete panel and the
out-of-range index 5. -/
theorem bufed_out_of_range_noop_witness :
    bufed_get_buffer cst9 5 = (none, cst9) ∧
    bufed_select cst9 5 1 = cst9 ∧
    bufed_clear_modified cst9 5 = cst9 ∧
    bufed_toggle_read_only cst9 5 = cst9 ∧
    (bufed_kill_buffer cst9 5).registry = cst9.registry := by
  have h := bufed_out_of_range_noop cst9 5 (by decide)
  exact ⟨h.1, h.2.1 1 (by omega), h.2.2.1, h.2.2.2.1, h.2.2.2.2 (by decide)⟩

/-- C10: immediately after every rebuild no row carries the selection flag -
`build_bufed_list` frees the previous rows and recreates each row fresh with a
cleared flag, so every rebuild-triggering command (refresh or filter toggle,
sort change, kill) discards all row-selection marks. -/
theorem bufed_rebuild_clears_selection :
    (∀ st : PanelState,
      ((build_bufed_list st).items.all fun it => !it.selected) = true) ∧
    (∀ (st : PanelState) (t : Int),
      ((bufed_refresh st t).items.all fun it => !it.selected) = true) ∧
    (∀ (st : PanelState) (k : Nat),
      ((bufed_set_sort st k).items.all fun it => !it.selected) = true) ∧
    (∀ (st : PanelState) (i : Int),
      ((bufed_kill_buffer st i).items.all fun it => !it.selected) = true) := by
  refine ⟨?_, ?_, ?_, ?_⟩
  · intro st
    exact computeItems_all_unselected _ _ _
  · intro st t
    exact computeItems_all_unselected _ _ _
  · intro st k
    exact computeItems_all_unselected _ _ _
  · intro st i
    exact computeItems_all_unselected _ _ _
